import Mathlib

/-!
Verification of the interactive WebSocket terminal client
(`src/websockets/__main__.py`): terminal printer, receiver loop,
input loop and shutdown coordination, shallowly embedded in Lean.

Terminal output is modelled as a list of atomic flushed writes
(each `String` in a `List String` is the content of one
`sys.stdout.write` call followed by a flush).
-/

namespace WsMain

/-- The ASCII ESC character (U+001B), written `\N{ESC}` in the source. -/
def ESCc : Char := Char.ofNat 27

/-- The ESC character as a one-character string. -/
def ESCs : String := String.mk [ESCc]

/-- `print_during_input(string)`: the single flushed write emitted by the
source function, transliterated literal-for-literal from the Python
concatenation (save cursor, line feed, cursor up, insert line, the string
plus a line feed, restore cursor, cursor down). -/
def print_during_input (s : String) : List String :=
  [ESCs ++ "7" ++ "\n" ++ ESCs ++ "[A" ++ ESCs ++ "[L" ++ s ++ "\n"
    ++ ESCs ++ "8" ++ ESCs ++ "[B"]

/-- `print_over_input(string)`: the single flushed write emitted by the
source function (carriage return, erase line, the string plus a line
feed). -/
def print_over_input (s : String) : List String :=
  ["\r" ++ ESCs ++ "[K" ++ s ++ "\n"]

/- Named ANSI control sequences, by their terminal meaning; used to state
what the printer writes are made of. -/

/-- DECSC: save cursor position. -/
def saveCursor : String := ESCs ++ "7"

/-- DECRC: restore saved cursor position. -/
def restoreCursor : String := ESCs ++ "8"

/-- CUU: move cursor up one line. -/
def cursorUp : String := ESCs ++ "[A"

/-- CUD: move cursor down one line. -/
def cursorDown : String := ESCs ++ "[B"

/-- IL: insert a blank line at the cursor, scrolling content below down. -/
def insertBlankLine : String := ESCs ++ "[L"

/-- EL: erase from the cursor to the end of the current line. -/
def eraseLine : String := ESCs ++ "[K"

/-- Line feed. -/
def newline : String := "\n"

/-- Carriage return: move the cursor to the start of the current line. -/
def carriageReturn : String := "\r"

/-! ### Incoming messages (receiver loop) -/

/-- An incoming message: `str` payloads are `text`, anything else the
iterator yields is a bytes-like payload, `binary` (a list of byte
values). -/
inductive Message where
  | text (s : String)
  | binary (b : List Nat)
deriving DecidableEq

/-- Lowercase hexadecimal digit for `n < 16`, as produced by Python's
`bytes.hex`. -/
def hexDigit (n : Nat) : Char :=
  if n < 10 then Char.ofNat (48 + n) else Char.ofNat (87 + n)

/-- One byte as two lowercase hex digits (`bytes.hex` per byte). -/
def byteHex (b : Nat) : String :=
  String.mk [hexDigit (b / 16 % 16), hexDigit (b % 16)]

/-- Python's `bytes.hex()`: every byte as two lowercase hex digits,
concatenated with no separator. -/
def bytesHex (bs : List Nat) : String :=
  String.join (bs.map byteHex)

/-- The line the receiver loop renders for one incoming message:
`isinstance(message, str)` selects the text branch, everything else is
rendered through `.hex()` with the `(binary)` marker. -/
def renderIncoming (m : Message) : String :=
  match m with
  | .text s => "< " ++ s
  | .binary b => "< (binary) " ++ bytesHex b

/-- `print_incoming_messages`: consume the incoming sequence, rendering
each item via `print_during_input`; when the sequence ends, deliver a
process-level interrupt (`os.kill(os.getpid(), SIGINT)`) exactly when
`stop.is_set()` is false at that moment.  Returns the list of flushed
writes and whether the interrupt was delivered.  `stopSet` is the value
of the flag at the final check. -/
def print_incoming_messages : List Message → Bool → List String × Bool
  | [], stopSet => ([], !stopSet)
  | m :: rest, stopSet =>
      let w := print_during_input (renderIncoming m)
      let r := print_incoming_messages rest stopSet
      (w ++ r.1, r.2)

/-! ### Input loop and main flow -/

/-- Exceptions relevant to the input loop: `KeyboardInterrupt` (from `^C`
or the receiver loop's `SIGINT`), `EOFError` (from `^D`), and the
connection-closed error a send raises when the connection was closed
concurrently. -/
inductive Exc where
  | keyboardInterrupt
  | eofError
  | connectionClosed
deriving DecidableEq

/-- One iteration's outcome in `while True: message = input("> ");
websocket.send(message)`: either `input` returns a line and `send` then
raises nothing (`none`) or some exception, or `input` itself raises. -/
inductive LoopEvent where
  | line (s : String) (sendExc : Option Exc)
  | readExc (e : Exc)
deriving DecidableEq

/-- The read loop of `main`: each successfully read line is passed to
`websocket.send` unmodified; the loop ends at the first exception (from
`input` or from `send`), or never on its own (an exhausted event list
models a still-blocked loop, `none`).  Returns the messages passed to
`send` and the exception that ended the loop. -/
def inputLoop : List LoopEvent → List String × Option Exc
  | [] => ([], none)
  | .readExc e :: _ => ([], some e)
  | .line s none :: rest =>
      let r := inputLoop rest
      (s :: r.1, r.2)
  | .line s (some e) :: _ => ([s], some e)

/-- Modelled from the spec: the failure a racing `websocket.send` raises
when the connection was concurrently closed by the remote side (raised
inside `websockets.sync`, which is not under `src/`); per the spec it is
a connection failure — "the resulting failure" of a send racing a
remote close — and so a distinct exception from `KeyboardInterrupt` and
`EOFError`. -/
def sendFailure : Exc := Exc.connectionClosed

/-- Whether `except (KeyboardInterrupt, EOFError)` catches `e`. -/
def caughtByExcept (e : Exc) : Bool :=
  match e with
  | .keyboardInterrupt => true
  | .eofError => true
  | .connectionClosed => false

/-- Modelled from the spec: `Close.__str__` (class `Close` lives in
`websockets.frames`, which is not under `src/`) renders a CloseStatus as
its code and reason, `<code> <reason>`. -/
def closeStr (code : Nat) (reason : String) : String :=
  toString code ++ " " ++ reason

/-- Outcome of `main` after the read loop ends. -/
structure MainResult where
  stopSet : Bool
  closed : Bool
  writes : List String
  joined : Bool
  uncaught : Option Exc
  assertionFailed : Bool
deriving DecidableEq

/-- The code after `main`'s read loop raises `e`: if `e` is caught by
`except (KeyboardInterrupt, EOFError)` the termination path runs —
`stop.set()`, then `websocket.close()`, then `assert` that the close code
and reason are populated (on failure the `AssertionError` is fatal:
nothing is printed and `thread.join()` is never reached), then
`print_over_input` of the close status, then `thread.join()`.  An
uncaught `e` propagates out of `main` and none of that runs.
`closeStatus` is `(close_code, close_reason)` after `close()` returns,
`none` when still unset. -/
def afterLoop (e : Exc) (closeStatus : Option (Nat × String)) : MainResult :=
  if caughtByExcept e then
    match closeStatus with
    | none =>
        { stopSet := true, closed := true, writes := [], joined := false,
          uncaught := none, assertionFailed := true }
    | some (code, reason) =>
        { stopSet := true, closed := true,
          writes := print_over_input
            ("Connection closed: " ++ closeStr code reason ++ "."),
          joined := true, uncaught := none, assertionFailed := false }
  else
    { stopSet := false, closed := false, writes := [], joined := false,
      uncaught := some e, assertionFailed := false }

/-- Result of the single `connect(args.uri)` call. -/
inductive ConnectResult where
  | conn
  | failed (err : String)
deriving DecidableEq

/-- Observable outcome of `main`'s connection phase. -/
structure ConnectPhase where
  stdoutLines : List String
  stderrLines : List String
  exitCode : Option Nat
  threadStarted : Bool
deriving DecidableEq

/-- `main`'s connection phase: `websocket = connect(args.uri)`; on
failure, `print(f"Failed to connect to ...")` — Python's `print` writes
to standard output — then `sys.exit(1)`, so the receiver thread start
below is never reached; on success, print the connected banner and start
the receiver thread. -/
def connectPhase (uri : String) (r : ConnectResult) : ConnectPhase :=
  match r with
  | .failed err =>
      { stdoutLines := ["Failed to connect to " ++ uri ++ ": " ++ err ++ "."],
        stderrLines := [], exitCode := some 1, threadStarted := false }
  | .conn =>
      { stdoutLines := ["Connected to " ++ uri ++ "."],
        stderrLines := [], exitCode := none, threadStarted := true }

/-! ### Ordering of the termination path against the receiver thread -/

/-- The input thread's atomic actions on its termination path, in program
order: `stop.set()`, then `websocket.close()`, then reading the close
status, then rendering it. -/
inductive InputAct where
  | setFlag
  | closeConn
  | readStatus
  | renderStatus
deriving DecidableEq

/-- The receiver thread's atomic actions: rendering a message, checking
`stop.is_set()`, delivering the interrupt. -/
inductive RecvAct where
  | render (m : Message)
  | checkFlag
  | sendInterrupt
deriving DecidableEq

/-- An event of the two-thread system, tagged with its thread. -/
inductive Ev where
  | inp (a : InputAct)
  | recv (r : RecvAct)
deriving DecidableEq

/-- The input thread's termination path as a trace of tagged events. -/
def termPathEv : List Ev :=
  [.inp .setFlag, .inp .closeConn, .inp .readStatus, .inp .renderStatus]

/-- `Interleave xs ys zs`: `zs` is an interleaving of the two thread
traces `xs` and `ys`, preserving each thread's program order. -/
inductive Interleave : List Ev → List Ev → List Ev → Prop where
  | nil : Interleave [] [] []
  | left : ∀ {x xs ys zs}, Interleave xs ys zs → Interleave (x :: xs) ys (x :: zs)
  | right : ∀ {y xs ys zs}, Interleave xs ys zs → Interleave xs (y :: ys) (y :: zs)

/-- Whether `stop.is_set()` reads true after the events `pre` have
executed: the flag is set exactly when `stop.set()` is among them. -/
def flagSet (pre : List Ev) : Bool :=
  decide (Ev.inp InputAct.setFlag ∈ pre)

/-- An event belongs to the input thread. -/
def isInput (e : Ev) : Bool :=
  match e with
  | .inp _ => true
  | .recv _ => false

/-! ### Helper lemmas -/

lemma interleave_filter {xs ys zs : List Ev} (h : Interleave xs ys zs) :
    (∀ y ∈ ys, isInput y = false) → zs.filter isInput = xs.filter isInput := by
  induction h with
  | nil => intro _; rfl
  | left h ih =>
      intro hys
      rw [List.filter_cons, List.filter_cons, ih hys]
  | right h ih =>
      intro hys
      have hy := hys _ (List.mem_cons_self _ _)
      simp only [List.filter_cons, hy]
      simp only [Bool.false_eq_true, if_false]
      exact ih fun a ha => hys a (List.mem_cons_of_mem _ ha)

lemma interleave_refl_left (xs : List Ev) : Interleave xs [] xs := by
  induction xs with
  | nil => exact Interleave.nil
  | cons x tl ih => exact Interleave.left ih

lemma filter_take_prefix {α : Type} (p : α → Bool) :
    ∀ (l : List α) (n : Nat), (l.take n).filter p <+: l.filter p := by
  intro l
  induction l with
  | nil => intro n; simp
  | cons a tl ih =>
      intro n
      cases n with
      | zero => simp
      | succ m =>
          rw [List.take_succ_cons, List.filter_cons, List.filter_cons]
          cases hpa : p a
          · simp only [Bool.false_eq_true, if_false]
            exact ih m
          · simp only [if_true]
            obtain ⟨r, hr⟩ := ih m
            exact ⟨r, by rw [List.cons_append, hr]⟩

lemma filter_termPath : termPathEv.filter isInput = termPathEv := rfl

lemma prefix_termPath_mem (l : List Ev) (h : l <+: termPathEv)
    (hc : Ev.inp InputAct.closeConn ∈ l) : Ev.inp InputAct.setFlag ∈ l := by
  obtain ⟨r, hr⟩ := h
  cases l with
  | nil => simp at hc
  | cons x xs =>
      unfold termPathEv at hr
      rw [List.cons_append] at hr
      injection hr with hx _
      rw [hx]
      exact List.mem_cons_self _ _

lemma print_incoming_messages_snd (msgs : List Message) (stopSet : Bool) :
    (print_incoming_messages msgs stopSet).2 = !stopSet := by
  induction msgs with
  | nil => rfl
  | cons m rest ih => simp [print_incoming_messages, ih]

lemma print_incoming_messages_fst (msgs : List Message) (stopSet : Bool) :
    (print_incoming_messages msgs stopSet).1
      = msgs.flatMap (fun m => print_during_input (renderIncoming m)) := by
  induction msgs with
  | nil => rfl
  | cons m rest ih => simp [print_incoming_messages, ih]

/-! ### Claims -/

/-- C1: in every interleaving of the input thread's termination path with
any receiver-thread trace, no prefix of the execution contains the
`close()` invocation without already containing the flag-set event — so
once `close()` has been invoked, `stop.is_set()` reads true, and a
receiver loop whose sequence terminates because of that close classifies
the shutdown as local. -/
theorem flag_set_before_close_in_every_interleaving
    (rs : List RecvAct) (t : List Ev)
    (h : Interleave termPathEv (rs.map Ev.recv) t) (n : Nat)
    (hc : Ev.inp InputAct.closeConn ∈ t.take n) :
    Ev.inp InputAct.setFlag ∈ t.take n ∧ flagSet (t.take n) = true := by
  have hys : ∀ y ∈ rs.map Ev.recv, isInput y = false := by
    intro y hy
    obtain ⟨r, hrmem, hyeq⟩ := List.mem_map.mp hy
    rw [← hyeq]
    rfl
  have hfe : t.filter isInput = termPathEv := by
    rw [interleave_filter h hys, filter_termPath]
  have hpre : (t.take n).filter isInput <+: termPathEv := by
    rw [← hfe]
    exact filter_take_prefix isInput t n
  have hcmem : Ev.inp InputAct.closeConn ∈ (t.take n).filter isInput :=
    List.mem_filter.mpr ⟨hc, rfl⟩
  have hsmem := prefix_termPath_mem _ hpre hcmem
  have hs : Ev.inp InputAct.setFlag ∈ t.take n := (List.mem_filter.mp hsmem).1
  exact ⟨hs, by simp [flagSet, hs]⟩

/-- C1 witness: the interleaving with an empty receiver trace, at the
prefix of length 2 (which contains the close event). -/
theorem flag_set_before_close_witness :
    Ev.inp InputAct.closeConn ∈ termPathEv.take 2 ∧
    (Ev.inp InputAct.setFlag ∈ termPathEv.take 2 ∧
      flagSet (termPathEv.take 2) = true) :=
  ⟨by decide,
    flag_set_before_close_in_every_interleaving [] termPathEv
      (interleave_refl_left termPathEv) 2 (by decide)⟩

/-- C2: when the receiver loop's incoming sequence terminates, it delivers
the process-level interrupt if and only if the shutdown flag is unset at
the check; and the flag's value causes no other difference — the rendered
writes are the same either way (a set flag means a silent exit with no
further action). -/
theorem interrupt_iff_flag_unset (msgs : List Message) (stopSet : Bool) :
    ((print_incoming_messages msgs stopSet).2 = true ↔ stopSet = false) ∧
    (print_incoming_messages msgs stopSet).1
      = (print_incoming_messages msgs (!stopSet)).1 := by
  constructor
  · rw [print_incoming_messages_snd]
    cases stopSet <;> simp
  · rw [print_incoming_messages_fst, print_incoming_messages_fst]

/-- C7: the receiver loop renders every incoming text message as the line
`< <text>` (verbatim) and every binary message as `< (binary) <hex>`
(payload hex-encoded), each as one `print_during_input`
(insert-above-prompt) write. -/
theorem incoming_rendering (msgs : List Message) (stopSet : Bool) :
    (print_incoming_messages msgs stopSet).1
      = msgs.flatMap (fun m =>
          match m with
          | .text s => print_during_input ("< " ++ s)
          | .binary b => print_during_input ("< (binary) " ++ bytesHex b)) := by
  induction msgs with
  | nil => rfl
  | cons m rest ih => cases m <;> simp [print_incoming_messages, ih, renderIncoming]

/-- C8: `print_during_input` (insert-above-prompt) emits exactly one
flushed write, consisting of: save cursor, newline, cursor up one line,
insert blank line, the text plus a newline, restore cursor, cursor down
one line — in that order. -/
theorem insert_above_prompt_write (s : String) :
    print_during_input s
      = [saveCursor ++ newline ++ cursorUp ++ insertBlankLine
          ++ s ++ newline ++ restoreCursor ++ cursorDown] := by
  simp [print_during_input, saveCursor, newline, cursorUp, insertBlankLine,
    restoreCursor, cursorDown, String.append_assoc]

/-- C9: every line successfully read from standard input — the empty line
included — is passed to `websocket.send` unmodified and in order, and the
loop then reads the next line; it ends only at the first exception. -/
theorem lines_sent_unmodified (lines : List String) (e : Exc) :
    inputLoop (lines.map (fun s => LoopEvent.line s none) ++ [LoopEvent.readExc e])
      = (lines, some e) := by
  induction lines with
  | nil => rfl
  | cons s rest ih => simp [inputLoop, ih]

/-- C10: message classification is purely the `isinstance(message, str)`
test — every non-string item is rendered through `.hex()` with the
`(binary)` marker, and an empty binary payload renders exactly as
`< (binary) ` with nothing after the trailing space. -/
theorem classification_and_empty_binary :
    (∀ s, renderIncoming (Message.text s) = "< " ++ s) ∧
    (∀ bs, renderIncoming (Message.binary bs) = "< (binary) " ++ bytesHex bs) ∧
    renderIncoming (Message.binary []) = "< (binary) " :=
  ⟨fun _ => rfl, fun _ => rfl, by decide⟩

/-- C3 counterexample: a send that fails with the connection-closed error
is *not* handled like an interrupt — at a concrete close status the
outcome differs from the `KeyboardInterrupt` outcome, because the
termination path (set flag, close, render, join) never runs: the flag
stays unset, nothing is closed or printed, and the exception propagates
out of `main`. -/
theorem send_failure_not_interrupt_equivalent :
    afterLoop sendFailure (some (1000, "bye"))
        ≠ afterLoop Exc.keyboardInterrupt (some (1000, "bye")) ∧
    (afterLoop sendFailure (some (1000, "bye"))).stopSet = false ∧
    (afterLoop sendFailure (some (1000, "bye"))).closed = false ∧
    (afterLoop sendFailure (some (1000, "bye"))).joined = false ∧
    (afterLoop sendFailure (some (1000, "bye"))).writes = [] := by
  decide

/-- C3 amended: `except (KeyboardInterrupt, EOFError)` does not catch the
connection-closed error a racing send raises, so that failure skips the
termination path entirely: the shutdown flag is never set, `close()` is
never called, nothing is rendered, the receiver thread is never joined,
and the exception propagates uncaught out of `main`. -/
theorem send_failure_uncaught (cs : Option (Nat × String)) :
    caughtByExcept sendFailure = false ∧
    (afterLoop sendFailure cs).uncaught = some sendFailure ∧
    (afterLoop sendFailure cs).stopSet = false ∧
    (afterLoop sendFailure cs).closed = false ∧
    (afterLoop sendFailure cs).joined = false ∧
    (afterLoop sendFailure cs).writes = [] := by
  simp [afterLoop, caughtByExcept, sendFailure]

/-- C4 counterexample: at a concrete failing connect, the failure report
goes to standard output, not standard error — the stderr stream stays
empty, refuting the claim that the message is reported to stderr. -/
theorem connect_failure_not_on_stderr :
    (connectPhase "ws://x" (ConnectResult.failed "boom")).stderrLines = [] ∧
    ("Failed to connect to ws://x: boom."
        ∉ (connectPhase "ws://x" (ConnectResult.failed "boom")).stderrLines) ∧
    (connectPhase "ws://x" (ConnectResult.failed "boom")).stdoutLines
      = ["Failed to connect to ws://x: boom."] := by
  decide

/-- C4 amended: if the single initial connection attempt fails, the
failure is reported to standard output as
`Failed to connect to <uri>: <error>.`, the process exits with code 1,
and no threads are started (and nothing is written to stderr). -/
theorem connect_failure_stdout_exit1_no_threads (uri err : String) :
    connectPhase uri (ConnectResult.failed err)
      = { stdoutLines := ["Failed to connect to " ++ uri ++ ": " ++ err ++ "."],
          stderrLines := [], exitCode := some 1, threadStarted := false } :=
  rfl

/-- C5: on a caught termination exception the input loop runs the
termination path — the flag is set and the connection closed — and the
writes it emits are exactly one `print_over_input` (replace-prompt) write:
cursor to column start, erase the line, then
`Connection closed: <code> <reason>.` plus a newline. -/
theorem termination_renders_close_status (e : Exc) (h : caughtByExcept e = true)
    (code : Nat) (reason : String) :
    (afterLoop e (some (code, reason))).stopSet = true ∧
    (afterLoop e (some (code, reason))).closed = true ∧
    (afterLoop e (some (code, reason))).writes
      = [carriageReturn ++ eraseLine
          ++ ("Connection closed: " ++ closeStr code reason ++ ".") ++ newline] := by
  simp [afterLoop, h, print_over_input, carriageReturn, eraseLine, newline,
    String.append_assoc]

/-- C5 witness at `KeyboardInterrupt`, close status `(1000, "bye")`. -/
theorem termination_renders_close_status_witness :
    caughtByExcept Exc.keyboardInterrupt = true ∧
    ((afterLoop Exc.keyboardInterrupt (some (1000, "bye"))).stopSet = true ∧
     (afterLoop Exc.keyboardInterrupt (some (1000, "bye"))).closed = true ∧
     (afterLoop Exc.keyboardInterrupt (some (1000, "bye"))).writes
       = [carriageReturn ++ eraseLine
           ++ ("Connection closed: " ++ closeStr 1000 "bye" ++ ".") ++ newline]) :=
  ⟨by decide, termination_renders_close_status Exc.keyboardInterrupt (by decide) 1000 "bye"⟩

/-- C6: after `close()` returns on the termination path the close code and
reason must be populated: if they are still unset the assertion fails
fatally (nothing is rendered and the receiver thread is never joined),
and if they are populated the assertion passes. -/
theorem close_status_assertion (e : Exc) (h : caughtByExcept e = true) :
    ((afterLoop e none).assertionFailed = true ∧
     (afterLoop e none).writes = [] ∧
     (afterLoop e none).joined = false ∧
     (afterLoop e none).stopSet = true ∧
     (afterLoop e none).closed = true) ∧
    (∀ code reason, (afterLoop e (some (code, reason))).assertionFailed = false) := by
  simp [afterLoop, h]

/-- C6 witness at `EOFError`. -/
theorem close_status_assertion_witness :
    caughtByExcept Exc.eofError = true ∧
    (afterLoop Exc.eofError none).assertionFailed = true ∧
    (afterLoop Exc.eofError (some (1000, "x"))).assertionFailed = false :=
  ⟨by decide, (close_status_assertion Exc.eofError (by decide)).1.1,
    (close_status_assertion Exc.eofError (by decide)).2 1000 "x"⟩

end WsMain
